import Mathlib

/-!
Shallow embedding of the VPN-account lifecycle controller of the `irip`
repository (file `vpn_account/models.py`, plus the subscription webhook
handler in `subscription/utils.py`).

Modelling conventions:
* Database rows are a `List VPNAccount`; saving a fresh row appends it,
  an in-place `save(update_fields=...)` is represented by replacing the
  row value, `delete()` removes it.
* Every remote HTTP interaction of the 3x-ui panel client is an oracle
  parameter of type `RemoteOutcome _`: `ok` is an HTTP 200 response with
  `success: true` (carrying the payload the code extracts), `fail` is a
  non-200 status or a 200 response with `success: false`, and `exn` is a
  raised exception of the `requests` library (transport error).
* Python exceptions are modelled with `PyResult`; the distinction between
  `requests.exceptions.RequestException` (`reqExn`) and every other
  exception (`otherExn`) matters because the `retry_on_auth_failure`
  decorator catches only the former.
* Python truthiness of the nullable integer column `inbound_id`
  (`if self.inbound_id:`) is modelled by `truthy`: `None` and `0` are
  falsy, every other integer is truthy.
* The X25519 public-key derivation `wg_public_key_from_private_key`
  (PyNaCl) is cryptographic code outside the scope of the embedding; the
  spec frames it as the Key Material Provider capability, so the config
  renderer takes the derivation function as an explicit parameter.
-/

namespace Irip

/-- The `status` column of `VPNAccount` (STATUS_CHOICES). -/
inductive Status
  | active
  | inactive
  | suspended
  | expired
deriving DecidableEq, BEq, Repr

/-- One entry of the `peers` array inside the WireGuard `settings` blob. -/
structure Peer where
  privateKey : String
  publicKey : String
deriving DecidableEq, Repr

/-- The parsed WireGuard `settings` JSON blob stored inside `config_data`
(the fields `generate_wireguard_config` reads). -/
structure WgSettings where
  peers : List Peer
  secretKey : String
deriving DecidableEq, Repr

/-- The inbound object echoed by the panel and stored in `config_data`:
`settings` is the JSON settings blob, `allowedIPs` the optional key read
with default `10.0.0.2/32`. -/
structure ConfigData where
  settings : WgSettings
  allowedIPs : Option String
deriving DecidableEq, Repr

/-- The part of a remote inbound snapshot that `update_usage_stats` reads:
the cumulative `up` and `down` byte counters. -/
structure Inbound where
  up : Int
  down : Int
deriving DecidableEq, Repr

/-- The columns of the `VPNAccount` Django model that the verified
operations read or write. -/
structure VPNAccount where
  inbound_id : Option Int
  email : String
  port : Nat
  server_ip : String
  config_data : Option ConfigData
  status : Status
  data_usage_up : Int
  data_usage_down : Int
deriving DecidableEq, Repr

/-- Python truthiness of the nullable integer `inbound_id` column:
`None` and `0` are falsy. -/
def truthy : Option Int → Bool
  | none => false
  | some n => n != 0

/-- Outcome of one remote HTTP call: `ok` is HTTP 200 with `success: true`
(carrying the extracted payload), `fail` is a non-200 status or
`success: false`, `exn` is a raised transport exception. -/
inductive RemoteOutcome (α : Type)
  | ok (obj : α)
  | fail
  | exn
deriving DecidableEq, Repr

/-- Result of running a Python callable: a returned value, a raised
`requests.exceptions.RequestException`, or any other raised exception. -/
inductive PyResult (α : Type)
  | val (a : α)
  | reqExn
  | otherExn
deriving DecidableEq, Repr

/-- `VPNAccount.generate_random_port`: draws `random.randint(10000, 60000)`
until the draw is not among the ports of the existing rows
(`cls.objects.values_list('port', flat=True)` ranges over ALL rows).
The random stream is the explicit list `draws`; `none` models the
source's unbounded `while True` loop finding no fresh draw. -/
def generate_random_port (existing : List Nat) : List Nat → Option Nat
  | [] => none
  | d :: ds => if d ∈ existing then generate_random_port existing ds else some d

/-- `VPNAccount.create_wireguard_account` (body, lines 222-316): if
`inbound_id` is truthy, return `True` at once; otherwise POST
`panel/inbound/add`.  On `success: true` store the returned id, fetch the
inbound via `get_inbound_from_3xui` (a raised exception there propagates
to the outer handler, which returns `False` with nothing saved; a
non-success response makes it return `None`, which is stored), set
`status = ACTIVE` and save.  Every other outcome returns `False` with the
row unchanged. -/
def create_wireguard_account (a : VPNAccount)
    (addOutcome : RemoteOutcome Int) (getOutcome : RemoteOutcome ConfigData) :
    Bool × VPNAccount :=
  if truthy a.inbound_id then (true, a)
  else
    match addOutcome with
    | RemoteOutcome.ok newId =>
        match getOutcome with
        | RemoteOutcome.exn => (false, a)
        | RemoteOutcome.ok inbound =>
            (true, { a with inbound_id := some newId, config_data := some inbound,
                            status := Status.active })
        | RemoteOutcome.fail =>
            (true, { a with inbound_id := some newId, config_data := none,
                            status := Status.active })
    | RemoteOutcome.fail => (false, a)
    | RemoteOutcome.exn => (false, a)

/-- The row that `create_account_for_subscription` saves before the
remote call (lines 196-205): `status = INACTIVE`, no `inbound_id`, the
default `server_ip`, zero usage counters. -/
def fresh_account (email : String) (port : Nat) : VPNAccount :=
  { inbound_id := none, email := email, port := port,
    server_ip := "116.203.123.232", config_data := none,
    status := Status.inactive, data_usage_up := 0, data_usage_down := 0 }

/-- `VPNAccount.create_account_for_subscription` (lines 181-220): reject a
subscription whose status is not `active`/`trialing`; allocate a port
(outer `none` models the allocator's loop never terminating); save a
`fresh_account` row; run `create_wireguard_account`; on `True` the
updated row stays persisted and is returned, on `False` the row is
deleted and `None` is returned.  The wrapping `retry_on_auth_failure`
decorator is the identity here because the body never raises a
`RequestException` (it catches every exception internally). -/
def create_account_for_subscription (subStatus : String) (db : List VPNAccount)
    (email : String) (draws : List Nat)
    (addOutcome : RemoteOutcome Int) (getOutcome : RemoteOutcome ConfigData) :
    Option (Option VPNAccount × List VPNAccount) :=
  if subStatus = "active" ∨ subStatus = "trialing" then
    match generate_random_port (db.map (fun a => a.port)) draws with
    | none => none
    | some port =>
        let r := create_wireguard_account (fresh_account email port) addOutcome getOutcome
        if r.1 then some (some r.2, db ++ [r.2])
        else some (none, db)
  else some (none, db)

/-- `VPNAccount.update_usage_stats` (body, lines 403-430): falsy
`inbound_id` returns `False`; on a successful GET of the inbound the
remote `up`/`down` counters are copied verbatim into
`data_usage_up`/`data_usage_down` and saved; any failure returns `False`
with the row unchanged. -/
def update_usage_stats (a : VPNAccount) (getOutcome : RemoteOutcome Inbound) :
    Bool × VPNAccount :=
  if truthy a.inbound_id = false then (false, a)
  else
    match getOutcome with
    | RemoteOutcome.ok inbound =>
        (true, { a with data_usage_up := inbound.up, data_usage_down := inbound.down })
    | RemoteOutcome.fail => (false, a)
    | RemoteOutcome.exn => (false, a)

/-- `VPNAccount.delete_account` (body, lines 432-488): falsy `inbound_id`
returns `False`; first GET the inbound (failure or exception returns
`False`); then POST `panel/inbound/update` with `enable = False`.  On
`success: true` set `status = INACTIVE` (keeping `inbound_id`) and save;
any other outcome returns `False` with the row unchanged. -/
def delete_account (a : VPNAccount)
    (getOutcome : RemoteOutcome Inbound) (updateOutcome : RemoteOutcome Unit) :
    Bool × VPNAccount :=
  if truthy a.inbound_id = false then (false, a)
  else
    match getOutcome with
    | RemoteOutcome.ok _ =>
        match updateOutcome with
        | RemoteOutcome.ok _ => (true, { a with status := Status.inactive })
        | RemoteOutcome.fail => (false, a)
        | RemoteOutcome.exn => (false, a)
    | RemoteOutcome.fail => (false, a)
    | RemoteOutcome.exn => (false, a)

/-- `VPNAccount.remove_account` (body, lines 490-520): falsy `inbound_id`
returns `False`; POST `panel/inbound/del/{id}`.  On `success: true` set
`status = EXPIRED`, clear `inbound_id` and save; any other outcome
returns `False` with the row unchanged. -/
def remove_account (a : VPNAccount) (delOutcome : RemoteOutcome Unit) :
    Bool × VPNAccount :=
  if truthy a.inbound_id = false then (false, a)
  else
    match delOutcome with
    | RemoteOutcome.ok _ => (true, { a with status := Status.expired, inbound_id := none })
    | RemoteOutcome.fail => (false, a)
    | RemoteOutcome.exn => (false, a)

/-- Loop body of the deactivation branch of `handle_subscription_updated`
(`subscription/utils.py` lines 247-257), applied to each account of the
queryset `filter(subscription=..., status=ACTIVE)`: call
`delete_account`, then unconditionally set `status = SUSPENDED` and save
("Even if the API call fails, mark the account as suspended"). -/
def handle_deactivation_step (a : VPNAccount)
    (getOutcome : RemoteOutcome Inbound) (updateOutcome : RemoteOutcome Unit) :
    VPNAccount :=
  let r := delete_account a getOutcome updateOutcome
  { r.2 with status := Status.suspended }

/-- The `retry_on_auth_failure` decorator at its only instantiation
(`max_retries = 3`, lines 64-81), unrolled.  `f i` is the outcome of the
wrapped function at attempt `i`.  Returns the final outcome together with
the number of calls to the wrapped function and the number of
`login_to_x_ui` calls: a returned value or a non-`RequestException`
exception is passed through at once; a `RequestException` triggers a
re-login and a retry, except on the last attempt where it is re-raised. -/
def retry_on_auth_failure3 {α : Type} (f : Nat → PyResult α) : PyResult α × Nat × Nat :=
  match f 0 with
  | PyResult.reqExn =>
      match f 1 with
      | PyResult.reqExn => (f 2, 3, 2)
      | r => (r, 2, 1)
  | r => (r, 1, 0)

/-- The decorated `create_wireguard_account` as called through
`retry_on_auth_failure`: the body catches every exception internally and
returns a boolean, so each attempt yields `PyResult.val`. -/
def create_wireguard_account_retried (a : VPNAccount)
    (addOutcome : RemoteOutcome Int) (getOutcome : RemoteOutcome ConfigData) :
    PyResult (Bool × VPNAccount) × Nat × Nat :=
  retry_on_auth_failure3 (fun _ => PyResult.val (create_wireguard_account a addOutcome getOutcome))

/-- The decorated `update_usage_stats`. -/
def update_usage_stats_retried (a : VPNAccount) (getOutcome : RemoteOutcome Inbound) :
    PyResult (Bool × VPNAccount) × Nat × Nat :=
  retry_on_auth_failure3 (fun _ => PyResult.val (update_usage_stats a getOutcome))

/-- The decorated `delete_account`. -/
def delete_account_retried (a : VPNAccount)
    (getOutcome : RemoteOutcome Inbound) (updateOutcome : RemoteOutcome Unit) :
    PyResult (Bool × VPNAccount) × Nat × Nat :=
  retry_on_auth_failure3 (fun _ => PyResult.val (delete_account a getOutcome updateOutcome))

/-- The decorated `remove_account`. -/
def remove_account_retried (a : VPNAccount) (delOutcome : RemoteOutcome Unit) :
    PyResult (Bool × VPNAccount) × Nat × Nat :=
  retry_on_auth_failure3 (fun _ => PyResult.val (remove_account a delOutcome))

/-- The f-string template of `generate_wireguard_config` (lines 383-393),
with the source's exact literal text and indentation. -/
def render_wireguard_config (privateKey addr serverPub serverIp : String) (port : Nat) : String :=
  "[Interface]\n        PrivateKey = " ++
    (privateKey ++
      ("\n        Address = " ++
        (addr ++
          ("\n        DNS = 8.8.8.8, 8.8.4.4\n        MTU = 1420\n\n        [Peer]\n        PublicKey = " ++
            (serverPub ++
              ("\n        AllowedIPs = 0.0.0.0/0, ::/0\n        Endpoint = " ++
                (serverIp ++
                  (":" ++
                    (toString port ++
                      "\n        PersistentKeepalive = 25")))))))))

/-- `VPNAccount.generate_wireguard_config` (lines 366-399): `None` when
`config_data` is absent; otherwise read `peers[0].privateKey` (an empty
`peers` array raises an `IndexError`, modelled by `otherExn`), derive the
server public key from the stored `secretKey` via the Key Material
Provider capability `derivePub` (`wg_public_key_from_private_key`), and
render the profile from `config_data`, `server_ip` and `port`.  The
saving lines of the source are commented out, so no account state is
mutated and the result is a pure function of those inputs. -/
def generate_wireguard_config (derivePub : String → String) (a : VPNAccount) :
    PyResult (Option String) :=
  match a.config_data with
  | none => PyResult.val none
  | some cd =>
      match cd.settings.peers with
      | [] => PyResult.otherExn
      | peer :: _ =>
          PyResult.val (some (render_wireguard_config peer.privateKey
            (cd.allowedIPs.getD "10.0.0.2/32")
            (derivePub cd.settings.secretKey) a.server_ip a.port))

/-- One invocation of `create_account_for_subscription`: the subscription
status seen, the generated email identifier, the random port draws, and
the two remote outcomes. -/
structure CreationReq where
  subStatus : String
  email : String
  draws : List Nat
  addOutcome : RemoteOutcome Int
  getOutcome : RemoteOutcome ConfigData

/-- A sequence of account creations, run left to right; a creation whose
port-allocation loop diverges makes no further progress. -/
def run_creations (db : List VPNAccount) : List CreationReq → List VPNAccount
  | [] => db
  | r :: rs =>
      match create_account_for_subscription r.subStatus db r.email r.draws
          r.addOutcome r.getOutcome with
      | none => db
      | some (_, db2) => run_creations db2 rs

/-- An account row is in the fully-removed state of the spec
(`remoteInboundRef` cleared with deletion intent) after `remove_account`:
`status = EXPIRED` and `inbound_id = None`. -/
def isRemoved (a : VPNAccount) : Bool :=
  a.status == Status.expired && a.inbound_id == none

/-- Events observable at the remote panel, for the login concurrency
model: a POST to the panel's `login` endpoint, or any other API call. -/
inductive PanelEv
  | loginPost
  | apiCall
deriving DecidableEq, Repr

/-- The remote events performed by one execution of `login_to_x_ui`
(lines 37-56): exactly one unconditional POST to the login endpoint —
the function consults no shared in-flight marker and takes no lock. -/
def login_to_x_ui_events : List PanelEv := [PanelEv.loginPost]

/-- Number of login POSTs in a trace of panel events. -/
def countLogin : List PanelEv → Nat
  | [] => 0
  | PanelEv.loginPost :: t => countLogin t + 1
  | PanelEv.apiCall :: t => countLogin t

/-- Interleaving semantics for concurrent callers: `Sched ls t` holds when
the global trace `t` is an arbitrary interleaving of the per-caller event
lists `ls` (each step consumes the next event of one caller). -/
inductive Sched : List (List PanelEv) → List PanelEv → Prop
  | done (ls : List (List PanelEv)) (h : ∀ l ∈ ls, l = []) : Sched ls []
  | step (l1 : List (List PanelEv)) (e : PanelEv) (rest : List PanelEv)
      (l2 : List (List PanelEv)) (t : List PanelEv)
      (h : Sched (l1 ++ rest :: l2) t) :
      Sched (l1 ++ (e :: rest) :: l2) (e :: t)

/-- A remote inbound snapshot used as a concrete test value. -/
def inb0 : Inbound := { up := 5, down := 7 }

/-- A concrete inbound payload (`config_data`) as echoed by the panel. -/
def cd0 : ConfigData :=
  { settings := { peers := [{ privateKey := "cGsx", publicKey := "cGIx" }],
                  secretKey := "c2sx" },
    allowedIPs := none }

/-- A provisioned account: `inbound_id = 42`, `status = ACTIVE`. -/
def acctA : VPNAccount :=
  { inbound_id := some 42, email := "alice_1a2b3c4d", port := 23456,
    server_ip := "116.203.123.232", config_data := some cd0,
    status := Status.active, data_usage_up := 3, data_usage_down := 4 }

/-- A freshly saved, not yet provisioned account: `inbound_id = None`. -/
def acctFresh : VPNAccount :=
  { inbound_id := none, email := "bob_99887766", port := 20000,
    server_ip := "116.203.123.232", config_data := none,
    status := Status.inactive, data_usage_up := 0, data_usage_down := 0 }

/-- An account whose `inbound_id` column holds the integer `0`: non-null,
yet falsy for the Python guard `if self.inbound_id:`. -/
def acctZero : VPNAccount :=
  { inbound_id := some 0, email := "carol_55667788", port := 21000,
    server_ip := "116.203.123.232", config_data := none,
    status := Status.active, data_usage_up := 0, data_usage_down := 0 }

/-- The account row produced by a fully successful creation run:
subscription `active`, first port draw `12345`, remote create returning
id `7`, inbound echo `cd0`. -/
def acctW : VPNAccount :=
  { inbound_id := some 7, email := "bob_99887766", port := 12345,
    server_ip := "116.203.123.232", config_data := some cd0,
    status := Status.active, data_usage_up := 0, data_usage_down := 0 }

/-- A concrete creation request for exercising `run_creations`. -/
def req1 : CreationReq :=
  { subStatus := "active", email := "bob_99887766", draws := [12345],
    addOutcome := RemoteOutcome.ok 7, getOutcome := RemoteOutcome.ok cd0 }

theorem str_append_assoc (a b c : String) : a ++ b ++ c = a ++ (b ++ c) :=
  String.ext (by simp [String.data_append])

theorem generate_random_port_not_mem (existing : List Nat) :
    ∀ draws p, generate_random_port existing draws = some p → p ∉ existing := by
  intro draws
  induction draws with
  | nil => intro p h; simp [generate_random_port] at h
  | cons d ds ih =>
      intro p h
      by_cases hd : d ∈ existing
      · exact ih p (by simpa [generate_random_port, hd] using h)
      · have : d = p := by simpa [generate_random_port, hd] using h
        simpa [this] using hd

theorem generate_random_port_mem (existing : List Nat) :
    ∀ draws p, generate_random_port existing draws = some p → p ∈ draws := by
  intro draws
  induction draws with
  | nil => intro p h; simp [generate_random_port] at h
  | cons d ds ih =>
      intro p h
      by_cases hd : d ∈ existing
      · exact List.mem_cons_of_mem d (ih p (by simpa [generate_random_port, hd] using h))
      · have : d = p := by simpa [generate_random_port, hd] using h
        simp [this]

theorem create_wireguard_account_port (a : VPNAccount)
    (rc : RemoteOutcome Int) (rg : RemoteOutcome ConfigData) :
    (create_wireguard_account a rc rg).2.port = a.port := by
  unfold create_wireguard_account
  split
  · rfl
  · cases rc <;> cases rg <;> rfl

theorem delete_account_inbound (a : VPNAccount)
    (g : RemoteOutcome Inbound) (u : RemoteOutcome Unit) :
    (delete_account a g u).2.inbound_id = a.inbound_id := by
  unfold delete_account
  split
  · rfl
  · cases g <;> cases u <;> rfl

theorem sched_countLogin :
    ∀ ls t, Sched ls t → countLogin t = (ls.map countLogin).sum := by
  intro ls t h
  induction h with
  | done ls h =>
      have hz : ∀ x ∈ ls.map countLogin, x = 0 := by
        intro x hx
        rcases List.mem_map.1 hx with ⟨l, hl, rfl⟩
        rw [h l hl]
        rfl
      simp [countLogin, List.sum_eq_zero hz]
  | step l1 e rest l2 t h ih =>
      cases e with
      | loginPost =>
          simp [countLogin, List.map_append, List.sum_append, ih]
          omega
      | apiCall =>
          simp [countLogin, List.map_append, List.sum_append, ih]

theorem sched_cons_nil :
    ∀ ls t, Sched ls t → Sched ([] :: ls) t := by
  intro ls t h
  induction h with
  | done ls h =>
      exact Sched.done ([] :: ls) (by
        intro l hl
        rcases List.mem_cons.1 hl with h1 | h1
        · exact h1
        · exact h l h1)
  | step l1 e rest l2 t h ih =>
      have h2 : Sched (([] :: l1) ++ rest :: l2) t := by simpa using ih
      have := Sched.step ([] :: l1) e rest l2 t h2
      simpa using this

theorem sched_replicate (e : PanelEv) :
    ∀ n, Sched (List.replicate n [e]) (List.replicate n e) := by
  intro n
  induction n with
  | zero => exact Sched.done [] (by simp)
  | succ n ih =>
      have h1 : Sched ([] :: List.replicate n [e]) (List.replicate n e) :=
        sched_cons_nil _ _ ih
      have h2 := Sched.step [] e [] (List.replicate n [e]) (List.replicate n e)
        (by simpa using h1)
      simpa [List.replicate_succ] using h2

/-- C2: No orphan on failure — whenever the remote create fails, whether
by a non-success response (`fail`) or by a raised exception (`exn`),
`create_account_for_subscription` returns `None` and the persisted
database is exactly what it was before the invocation: the row saved
before the remote call has been deleted. -/
theorem c2_no_orphan_on_failure
    (subStatus : String) (db : List VPNAccount) (email : String) (draws : List Nat)
    (rc : RemoteOutcome Int) (rg : RemoteOutcome ConfigData)
    (res : Option VPNAccount) (db2 : List VPNAccount)
    (hfail : rc = RemoteOutcome.fail ∨ rc = RemoteOutcome.exn)
    (h : create_account_for_subscription subStatus db email draws rc rg = some (res, db2)) :
    db2 = db ∧ res = none := by
  unfold create_account_for_subscription at h
  by_cases hs : subStatus = "active" ∨ subStatus = "trialing"
  · rw [if_pos hs] at h
    cases hp : generate_random_port (db.map fun a => a.port) draws with
    | none => rw [hp] at h; exact absurd h (by simp)
    | some p =>
        rw [hp] at h
        rcases hfail with hf | hf <;> subst hf <;>
          · simp [create_wireguard_account, truthy, fresh_account] at h
            exact ⟨h.2.symm, h.1.symm⟩
  · rw [if_neg hs] at h
    simp at h
    exact ⟨h.2.symm, h.1.symm⟩

theorem c2_no_orphan_on_failure_witness :
    create_account_for_subscription "active" [acctA] "bob_99887766" [20001]
        RemoteOutcome.fail RemoteOutcome.fail = some (none, [acctA]) ∧
    [acctA] = [acctA] ∧ (none : Option VPNAccount) = none := by
  have hcall : create_account_for_subscription "active" [acctA] "bob_99887766" [20001]
      RemoteOutcome.fail RemoteOutcome.fail = some (none, [acctA]) := by decide
  have h := c2_no_orphan_on_failure "active" [acctA] "bob_99887766" [20001]
      RemoteOutcome.fail RemoteOutcome.fail none [acctA] (Or.inl rfl) hcall
  exact ⟨hcall, h.1, h.2⟩

/-- C4: Remove atomicity — for an account whose `inbound_id` is a nonzero
integer (the guard `if not self.inbound_id:` passes exactly then, which
is when the remote delete is attempted), `remove_account` on remote
success returns `True` with `status = EXPIRED` and `inbound_id` cleared,
and on remote failure (non-success response or raised exception) returns
`False` with every column exactly as it was before the call. -/
theorem c4_remove_atomicity (a : VPNAccount) (n : Int)
    (h : a.inbound_id = some n) (hn : n ≠ 0) :
    remove_account a (RemoteOutcome.ok ()) =
      (true, { a with status := Status.expired, inbound_id := none }) ∧
    (∀ u : RemoteOutcome Unit, u = RemoteOutcome.fail ∨ u = RemoteOutcome.exn →
      remove_account a u = (false, a)) := by
  have ht : truthy a.inbound_id = true := by rw [h]; simpa [truthy] using hn
  constructor
  · simp [remove_account, ht]
  · rintro u (rfl | rfl) <;> simp [remove_account, ht]

theorem c4_remove_atomicity_witness :
    remove_account acctA (RemoteOutcome.ok ()) =
      (true, { acctA with status := Status.expired, inbound_id := none }) ∧
    remove_account acctA RemoteOutcome.fail = (false, acctA) := by
  have h := c4_remove_atomicity acctA 42 rfl (by decide)
  exact ⟨h.1, h.2 RemoteOutcome.fail (Or.inl rfl)⟩

/-- C7: Usage refresh is a verbatim, idempotent copy — for an account
whose `inbound_id` is truthy (exactly when the remote snapshot is
fetched), a successful `update_usage_stats` sets `data_usage_up` and
`data_usage_down` to the snapshot's `up`/`down` counters verbatim, and
running it again against the same snapshot leaves the account
unchanged (no delta accumulation). -/
theorem c7_usage_refresh_verbatim_idempotent (a : VPNAccount) (inb : Inbound)
    (h : truthy a.inbound_id = true) :
    (update_usage_stats a (RemoteOutcome.ok inb)).2.data_usage_up = inb.up ∧
    (update_usage_stats a (RemoteOutcome.ok inb)).2.data_usage_down = inb.down ∧
    (update_usage_stats (update_usage_stats a (RemoteOutcome.ok inb)).2
        (RemoteOutcome.ok inb)).2 =
      (update_usage_stats a (RemoteOutcome.ok inb)).2 := by
  simp [update_usage_stats, h]

theorem c7_usage_refresh_witness :
    (update_usage_stats acctA (RemoteOutcome.ok inb0)).2.data_usage_up = inb0.up ∧
    (update_usage_stats acctA (RemoteOutcome.ok inb0)).2.data_usage_down = inb0.down ∧
    (update_usage_stats (update_usage_stats acctA (RemoteOutcome.ok inb0)).2
        (RemoteOutcome.ok inb0)).2 =
      (update_usage_stats acctA (RemoteOutcome.ok inb0)).2 :=
  c7_usage_refresh_verbatim_idempotent acctA inb0 (by decide)

/-- C10: the claim as stated is false — `acctZero` has a non-null
`inbound_id` (the integer `0`), yet `create_wireguard_account` does not
return success immediately: the guard `if self.inbound_id:` uses Python
truthiness, `0` is falsy, so the method proceeds to the remote call;
under a failing remote it returns `False`, and under a succeeding remote
it mutates the account's fields. -/
theorem c10_idempotent_create_refuted :
    (create_wireguard_account acctZero RemoteOutcome.fail RemoteOutcome.exn).1 = false ∧
    (create_wireguard_account acctZero (RemoteOutcome.ok 7) (RemoteOutcome.ok cd0)).2 ≠ acctZero := by
  decide

/-- C10 (amended): for every account whose `inbound_id` is non-null AND
nonzero, `create_wireguard_account` returns `True` immediately, changes
no field, and is independent of every remote outcome (no remote call is
consulted). -/
theorem c10_idempotent_create_amended (a : VPNAccount) (n : Int)
    (h : a.inbound_id = some n) (hn : n ≠ 0)
    (rc : RemoteOutcome Int) (rg : RemoteOutcome ConfigData) :
    create_wireguard_account a rc rg = (true, a) := by
  have ht : truthy a.inbound_id = true := by rw [h]; simpa [truthy] using hn
  simp [create_wireguard_account, ht]

/-- C3: the claim as stated is false at a concrete provisioned account —
`delete_account` on a failed remote update returns `False` but does NOT
force the status to `Suspended` (the account `acctA` remains `Active`),
and in the subscription-updated flow, which is where the unconditional
suspension lives, a SUCCESSFUL remote update still ends with
`status = Suspended`, not `Inactive`. -/
theorem c3_deactivate_failsafe_refuted :
    ¬ ((delete_account acctA (RemoteOutcome.ok inb0) RemoteOutcome.fail).2.status =
          Status.suspended ∨
       (handle_deactivation_step acctA (RemoteOutcome.ok inb0)
          (RemoteOutcome.ok ())).status = Status.inactive) := by
  decide

/-- C3 (amended): `delete_account` on remote-update success sets
`status = INACTIVE` and preserves `inbound_id`; on a failed fetch or a
failed update it returns `False` and leaves the account completely
unchanged (so a directly-invoked failed deactivate leaves the account
`Active`).  The force-set to `Suspended` is performed by the
subscription-updated handler, which applies it unconditionally — after
the handler the account is never `Active`, but it ends `Suspended` even
when the remote update succeeded. -/
theorem c3_deactivate_amended :
    (∀ (a : VPNAccount) (inb : Inbound), truthy a.inbound_id = true →
        delete_account a (RemoteOutcome.ok inb) (RemoteOutcome.ok ()) =
          (true, { a with status := Status.inactive })) ∧
    (∀ (a : VPNAccount) (g : RemoteOutcome Inbound) (u : RemoteOutcome Unit),
        g = RemoteOutcome.fail ∨ g = RemoteOutcome.exn ∨
          u = RemoteOutcome.fail ∨ u = RemoteOutcome.exn →
        delete_account a g u = (false, a)) ∧
    (∀ (a : VPNAccount) (g : RemoteOutcome Inbound) (u : RemoteOutcome Unit),
        (handle_deactivation_step a g u).status = Status.suspended ∧
        (handle_deactivation_step a g u).inbound_id = a.inbound_id) := by
  refine ⟨?_, ?_, ?_⟩
  · intro a inb h
    simp [delete_account, h]
  · intro a g u h
    unfold delete_account
    split
    · rfl
    · rcases h with rfl | rfl | rfl | rfl
      · rfl
      · rfl
      · cases g <;> rfl
      · cases g <;> rfl
  · intro a g u
    exact ⟨rfl, by simp [handle_deactivation_step, delete_account_inbound]⟩

theorem c3_deactivate_amended_witness :
    delete_account acctA (RemoteOutcome.ok inb0) (RemoteOutcome.ok ()) =
      (true, { acctA with status := Status.inactive }) ∧
    delete_account acctA (RemoteOutcome.ok inb0) RemoteOutcome.fail = (false, acctA) ∧
    (handle_deactivation_step acctA (RemoteOutcome.ok inb0)
        RemoteOutcome.fail).status = Status.suspended := by
  obtain ⟨h1, h2, h3⟩ := c3_deactivate_amended
  exact ⟨h1 acctA inb0 (by decide),
    h2 acctA (RemoteOutcome.ok inb0) RemoteOutcome.fail (Or.inr (Or.inr (Or.inl rfl))),
    (h3 acctA (RemoteOutcome.ok inb0) RemoteOutcome.fail).1⟩

/-- C5: the claim as stated is false at a concrete input — a transport
error (a raised `requests` exception during the inbound-add POST) is
caught INSIDE `create_wireguard_account`, which returns `False`, so the
`retry_on_auth_failure` decorator sees a normal return: the wrapped body
runs exactly once and `login_to_x_ui` is never re-invoked, not the
claimed 3 attempts with re-authentication. -/
theorem c5_retry_policy_refuted :
    (create_wireguard_account_retried acctFresh RemoteOutcome.exn RemoteOutcome.exn).2 =
      (1, 0) ∧
    ¬ ((create_wireguard_account_retried acctFresh RemoteOutcome.exn
          RemoteOutcome.exn).2.1 = 3) := by
  decide

/-- C5 (amended): the decorator retries (3 attempts, re-login between
attempts) only when the wrapped callable raises a `RequestException`;
every decorated Gateway method catches all its exceptions internally and
returns a boolean, so each decorated call runs its body exactly once
with zero re-logins, and both transport errors and application-level
`success: false` responses surface as an immediate `False`. -/
theorem c5_retry_policy_amended :
    (∀ (f : Nat → PyResult (Bool × VPNAccount)) (r : PyResult (Bool × VPNAccount)),
        (∀ i, f i = r) → r ≠ PyResult.reqExn → retry_on_auth_failure3 f = (r, 1, 0)) ∧
    (∀ f : Nat → PyResult (Bool × VPNAccount),
        (∀ i, f i = PyResult.reqExn) →
        retry_on_auth_failure3 f = (PyResult.reqExn, 3, 2)) ∧
    (∀ a rc rg, create_wireguard_account_retried a rc rg =
        (PyResult.val (create_wireguard_account a rc rg), 1, 0)) ∧
    (∀ a g, update_usage_stats_retried a g =
        (PyResult.val (update_usage_stats a g), 1, 0)) ∧
    (∀ a g u, delete_account_retried a g u =
        (PyResult.val (delete_account a g u), 1, 0)) ∧
    (∀ a d, remove_account_retried a d =
        (PyResult.val (remove_account a d), 1, 0)) ∧
    (∀ (a : VPNAccount) (rg : RemoteOutcome ConfigData), truthy a.inbound_id = false →
        create_wireguard_account a RemoteOutcome.exn rg = (false, a) ∧
        create_wireguard_account a RemoteOutcome.fail rg = (false, a)) := by
  refine ⟨?_, ?_, ?_, ?_, ?_, ?_, ?_⟩
  · intro f r hf hr
    unfold retry_on_auth_failure3
    rw [hf 0]
    cases r with
    | val a => rfl
    | reqExn => exact absurd rfl hr
    | otherExn => rfl
  · intro f hf
    unfold retry_on_auth_failure3
    rw [hf 0, hf 1, hf 2]
  · intro a rc rg; rfl
  · intro a g; rfl
  · intro a g u; rfl
  · intro a d; rfl
  · intro a rg h
    constructor <;> simp [create_wireguard_account, h]

theorem c5_retry_policy_amended_witness :
    retry_on_auth_failure3 (fun _ => (PyResult.reqExn : PyResult (Bool × VPNAccount))) =
      (PyResult.reqExn, 3, 2) ∧
    create_wireguard_account_retried acctFresh RemoteOutcome.fail RemoteOutcome.fail =
      (PyResult.val (false, acctFresh), 1, 0) := by
  obtain ⟨h1, h2, h3, h4⟩ := c5_retry_policy_amended
  constructor
  · exact h2 (fun _ => PyResult.reqExn) (fun _ => rfl)
  · rw [h3 acctFresh RemoteOutcome.fail RemoteOutcome.fail]
    decide

theorem c10_idempotent_create_amended_witness :
    create_wireguard_account acctA RemoteOutcome.exn RemoteOutcome.exn = (true, acctA) :=
  c10_idempotent_create_amended acctA 42 rfl (by decide) RemoteOutcome.exn RemoteOutcome.exn

/-- C6: Create success postcondition — when the subscription status check
passes, the port allocator yields a draw (all draws being in
`randint`'s range [10000, 60000]), and the remote create succeeds with
id `n`, the account returned and persisted by
`create_account_for_subscription` has `status = ACTIVE`,
`inbound_id = n`, a port within [10000, 60000], and sits in the
resulting database. -/
theorem c6_create_success_postcondition
    (subStatus : String) (db : List VPNAccount) (email : String) (draws : List Nat)
    (n : Int) (rg : RemoteOutcome ConfigData) (acc : VPNAccount) (db2 : List VPNAccount)
    (hdraws : ∀ d ∈ draws, 10000 ≤ d ∧ d ≤ 60000)
    (h : create_account_for_subscription subStatus db email draws (RemoteOutcome.ok n) rg
        = some (some acc, db2)) :
    acc.status = Status.active ∧ acc.inbound_id = some n ∧
    10000 ≤ acc.port ∧ acc.port ≤ 60000 ∧ acc ∈ db2 := by
  unfold create_account_for_subscription at h
  by_cases hs : subStatus = "active" ∨ subStatus = "trialing"
  · rw [if_pos hs] at h
    cases hp : generate_random_port (db.map fun a => a.port) draws with
    | none => rw [hp] at h; exact absurd h (by simp)
    | some p =>
        rw [hp] at h
        have hpr := hdraws p (generate_random_port_mem _ draws p hp)
        cases rg with
        | exn =>
            simp [create_wireguard_account, truthy, fresh_account] at h
        | ok cd =>
            simp [create_wireguard_account, truthy, fresh_account] at h
            obtain ⟨h1, h2⟩ := h
            subst h2
            refine ⟨?_, ?_, ?_, ?_, ?_⟩ <;>
              simp [← h1, fresh_account, hpr.1, hpr.2]
        | fail =>
            simp [create_wireguard_account, truthy, fresh_account] at h
            obtain ⟨h1, h2⟩ := h
            subst h2
            refine ⟨?_, ?_, ?_, ?_, ?_⟩ <;>
              simp [← h1, fresh_account, hpr.1, hpr.2]
  · rw [if_neg hs] at h
    simp at h

theorem create_account_ports_nodup
    (subStatus email : String) (draws : List Nat)
    (rc : RemoteOutcome Int) (rg : RemoteOutcome ConfigData)
    (db : List VPNAccount) (res : Option VPNAccount) (db2 : List VPNAccount)
    (h : create_account_for_subscription subStatus db email draws rc rg = some (res, db2))
    (hnd : (db.map (fun a => a.port)).Nodup) :
    (db2.map (fun a => a.port)).Nodup := by
  unfold create_account_for_subscription at h
  by_cases hs : subStatus = "active" ∨ subStatus = "trialing"
  · rw [if_pos hs] at h
    cases hp : generate_random_port (db.map fun a => a.port) draws with
    | none => rw [hp] at h; exact absurd h (by simp)
    | some p =>
        rw [hp] at h
        dsimp only at h
        have hfresh : p ∉ db.map (fun a => a.port) :=
          generate_random_port_not_mem _ draws p hp
        have hport : (create_wireguard_account (fresh_account email p) rc rg).2.port = p :=
          create_wireguard_account_port (fresh_account email p) rc rg
        by_cases hr : (create_wireguard_account (fresh_account email p) rc rg).1 = true
        · rw [if_pos hr] at h
          simp only [Option.some.injEq, Prod.mk.injEq] at h
          obtain ⟨h1, h2⟩ := h
          subst h2
          simp only [List.map_append, List.map_cons, List.map_nil, hport]
          rw [List.nodup_append]
          refine ⟨hnd, List.nodup_singleton p, ?_⟩
          intro x hx hx2
          simp at hx2
          subst hx2
          exact hfresh hx
        · rw [if_neg hr] at h
          simp only [Option.some.injEq, Prod.mk.injEq] at h
          obtain ⟨h1, h2⟩ := h
          subst h2
          exact hnd
  · rw [if_neg hs] at h
    simp only [Option.some.injEq, Prod.mk.injEq] at h
    obtain ⟨h1, h2⟩ := h
    subst h2
    exact hnd

theorem run_creations_ports_nodup (reqs : List CreationReq) :
    ∀ db : List VPNAccount, (db.map (fun a => a.port)).Nodup →
      ((run_creations db reqs).map (fun a => a.port)).Nodup := by
  induction reqs with
  | nil => intro db h; simpa [run_creations] using h
  | cons r rs ih =>
      intro db h
      unfold run_creations
      cases hc : create_account_for_subscription r.subStatus db r.email r.draws
          r.addOutcome r.getOutcome with
      | none => simpa using h
      | some pr =>
          exact ih pr.2 (create_account_ports_nodup r.subStatus r.email r.draws
            r.addOutcome r.getOutcome db pr.1 pr.2 (by rw [hc]) h)

/-- C1: Port uniqueness — the allocator, whenever it returns, yields a
port that lies in `randint`'s range [10000, 60000] (given that each raw
draw does) and differs from the port of every existing account row
(`generate_random_port` consults all rows and redraws on collision);
consequently every sequence of account creations starting from a
database with pairwise-distinct ports ends in a database with
pairwise-distinct ports, in particular distinct over the rows not in
the removed (expired-and-cleared) state. -/
theorem c1_port_uniqueness :
    (∀ (existing draws : List Nat) (p : Nat),
        (∀ d ∈ draws, 10000 ≤ d ∧ d ≤ 60000) →
        generate_random_port existing draws = some p →
        10000 ≤ p ∧ p ≤ 60000 ∧ p ∉ existing) ∧
    (∀ (db : List VPNAccount) (reqs : List CreationReq),
        (db.map (fun a => a.port)).Nodup →
        ((run_creations db reqs).map (fun a => a.port)).Nodup ∧
        (((run_creations db reqs).filter (fun a => !(isRemoved a))).map
            (fun a => a.port)).Nodup) := by
  constructor
  · intro existing draws p hd hp
    have hmem := generate_random_port_mem existing draws p hp
    exact ⟨(hd p hmem).1, (hd p hmem).2, generate_random_port_not_mem existing draws p hp⟩
  · intro db reqs hnd
    have hall := run_creations_ports_nodup reqs db hnd
    refine ⟨hall, ?_⟩
    have hsub : (((run_creations db reqs).filter (fun a => !(isRemoved a))).map
        (fun a => a.port)).Sublist ((run_creations db reqs).map (fun a => a.port)) :=
      List.Sublist.map _ (List.filter_sublist _)
    exact List.Nodup.sublist hsub hall

theorem c1_port_uniqueness_witness :
    (10000 ≤ 15000 ∧ 15000 ≤ 60000 ∧ (15000 : Nat) ∉ ([23456] : List Nat)) ∧
    ((run_creations [acctA] [req1]).map (fun a => a.port)).Nodup := by
  obtain ⟨h1, h2⟩ := c1_port_uniqueness
  exact ⟨h1 [23456] [15000] 15000 (by decide) (by decide),
    (h2 [acctA] [req1] (by decide)).1⟩

theorem c6_create_success_witness :
    acctW.status = Status.active ∧ acctW.inbound_id = some 7 ∧
    10000 ≤ acctW.port ∧ acctW.port ≤ 60000 ∧ acctW ∈ [acctW] :=
  c6_create_success_postcondition "active" [] "bob_99887766" [12345] 7
    (RemoteOutcome.ok cd0) acctW [acctW] (by decide) (by decide)

theorem render_contains (pk ad sp ip : String) (port : Nat) :
    (∃ s t, render_wireguard_config pk ad sp ip port = s ++ (pk ++ t)) ∧
    (∃ s t, render_wireguard_config pk ad sp ip port = s ++ (sp ++ t)) ∧
    (∃ s t, render_wireguard_config pk ad sp ip port =
        s ++ (ip ++ (":" ++ (toString port ++ t)))) := by
  refine ⟨⟨_, _, rfl⟩, ?_, ?_⟩
  · refine ⟨"[Interface]\n        PrivateKey = " ++ (pk ++ ("\n        Address = " ++
      (ad ++ "\n        DNS = 8.8.8.8, 8.8.4.4\n        MTU = 1420\n\n        [Peer]\n        PublicKey = "))),
      "\n        AllowedIPs = 0.0.0.0/0, ::/0\n        Endpoint = " ++
        (ip ++ (":" ++ (toString port ++ "\n        PersistentKeepalive = 25"))), ?_⟩
    simp [render_wireguard_config, str_append_assoc]
  · refine ⟨"[Interface]\n        PrivateKey = " ++ (pk ++ ("\n        Address = " ++
      (ad ++ ("\n        DNS = 8.8.8.8, 8.8.4.4\n        MTU = 1420\n\n        [Peer]\n        PublicKey = " ++
        (sp ++ "\n        AllowedIPs = 0.0.0.0/0, ::/0\n        Endpoint = "))))),
      "\n        PersistentKeepalive = 25", ?_⟩
    simp [render_wireguard_config, str_append_assoc]

/-- C8: Config rendering — `generate_wireguard_config` returns `None`
exactly when `config_data` is absent; when `config_data` carries a
nonempty `peers` array (which every panel echo stored by a successful
create has) it returns precisely the `[Interface]`/`[Peer]` template
instantiated with the stored private key `peers[0].privateKey`, the
server public key derived from the stored `secretKey` by the Key
Material Provider, and the endpoint `server_ip:port`; the rendered text
contains those three components; and the result is a pure function of
`config_data`, `port` and `server_ip` alone (no account state is
mutated — the source's save lines are commented out). -/
theorem c8_generate_config_spec (derivePub : String → String) (a : VPNAccount) :
    (a.config_data = none → generate_wireguard_config derivePub a = PyResult.val none) ∧
    (∀ cd peer rest, a.config_data = some cd → cd.settings.peers = peer :: rest →
        generate_wireguard_config derivePub a =
          PyResult.val (some (render_wireguard_config peer.privateKey
            (cd.allowedIPs.getD "10.0.0.2/32") (derivePub cd.settings.secretKey)
            a.server_ip a.port)) ∧
        (∃ s t, render_wireguard_config peer.privateKey (cd.allowedIPs.getD "10.0.0.2/32")
            (derivePub cd.settings.secretKey) a.server_ip a.port =
              s ++ (peer.privateKey ++ t)) ∧
        (∃ s t, render_wireguard_config peer.privateKey (cd.allowedIPs.getD "10.0.0.2/32")
            (derivePub cd.settings.secretKey) a.server_ip a.port =
              s ++ (derivePub cd.settings.secretKey ++ t)) ∧
        (∃ s t, render_wireguard_config peer.privateKey (cd.allowedIPs.getD "10.0.0.2/32")
            (derivePub cd.settings.secretKey) a.server_ip a.port =
              s ++ (a.server_ip ++ (":" ++ (toString a.port ++ t))))) ∧
    (∀ b : VPNAccount, a.config_data = b.config_data → a.port = b.port →
        a.server_ip = b.server_ip →
        generate_wireguard_config derivePub a = generate_wireguard_config derivePub b) := by
  refine ⟨?_, ?_, ?_⟩
  · intro h
    simp [generate_wireguard_config, h]
  · intro cd peer rest h1 h2
    obtain ⟨e1, e2, e3⟩ := render_contains peer.privateKey (cd.allowedIPs.getD "10.0.0.2/32")
      (derivePub cd.settings.secretKey) a.server_ip a.port
    exact ⟨by simp [generate_wireguard_config, h1, h2], e1, e2, e3⟩
  · intro b h1 h2 h3
    unfold generate_wireguard_config
    rw [h1, h2, h3]

theorem c8_generate_config_witness :
    generate_wireguard_config (fun s => s) acctFresh = PyResult.val none ∧
    generate_wireguard_config (fun s => s) acctA =
      PyResult.val (some (render_wireguard_config "cGsx" "10.0.0.2/32" "c2sx"
        "116.203.123.232" 23456)) := by
  constructor
  · exact (c8_generate_config_spec (fun s => s) acctFresh).1 rfl
  · have h := ((c8_generate_config_spec (fun s => s) acctA).2.1 cd0
      { privateKey := "cGsx", publicKey := "cGIx" } [] rfl rfl).1
    rw [h]
    rfl

/-- C9: the claim as stated is false — `login_to_x_ui` consults no shared
in-flight marker and takes no lock, so each of 10 concurrent callers
re-authenticating performs its own POST to the panel's login endpoint:
it is not the case that every interleaving of 10 such callers contains
exactly one login call (the sequential interleaving contains 10). -/
theorem c9_single_flight_login_refuted :
    ¬ (∀ t, Sched (List.replicate 10 login_to_x_ui_events) t → countLogin t = 1) := by
  intro h
  have h10 := h (List.replicate 10 PanelEv.loginPost)
    (sched_replicate PanelEv.loginPost 10)
  have hc : countLogin (List.replicate 10 PanelEv.loginPost) = 10 := by decide
  rw [hc] at h10
  exact absurd h10 (by decide)

/-- C9 (amended): there is no single-flight serialization — every
interleaving of `n` concurrent executions of `login_to_x_ui` contains
exactly `n` POSTs to the login endpoint, one per caller. -/
theorem c9_login_storm_amended (n : Nat) (t : List PanelEv)
    (h : Sched (List.replicate n login_to_x_ui_events) t) :
    countLogin t = n := by
  have hc := sched_countLogin _ _ h
  rw [hc, List.map_replicate]
  have h1 : countLogin login_to_x_ui_events = 1 := rfl
  rw [h1]
  simp

theorem c9_login_storm_amended_witness :
    countLogin (List.replicate 3 PanelEv.loginPost) = 3 :=
  c9_login_storm_amended 3 (List.replicate 3 PanelEv.loginPost)
    (sched_replicate PanelEv.loginPost 3)

end Irip
